import Mathlib

/-!
Shallow embedding of the Raspadinha Premiada backend (`src/main.py`).

Python floats in the configured literals are modelled by their exact decimal
values as rationals (`ℚ`); the process random source (`random.random()`,
`random.choice`), uuid generation and wall-clock timestamps are injected as
explicit arguments, as the spec's determinism requirement prescribes.  The
in-memory dicts `tickets_db`, `payments_db` and the Mercado Pago transaction
ledger are modelled as association lists with Python-dict semantics (lookup
finds the binding, assignment replaces it or appends a fresh one).
-/

/-- One entry of a prize pool: an `{"amount", "probability", "message"}` dict
from `PrizeSystem.__init__` (src/main.py lines 53-82). -/
structure PoolEntry where
  amount : ℚ
  probability : ℚ
  message : String
deriving DecidableEq

/-- Outcome dict returned by `PrizeSystem.generate_prize`.  The `timestamp`
field (an opaque wall-clock string, `datetime.now().isoformat()`) is not part
of any claim and is omitted. -/
structure PrizeOutcome where
  amount : ℚ
  message : String
  is_winner : Bool
  prize_tier : String
deriving DecidableEq

/-- Prize pool for ticket price 5 (src/main.py lines 54-60). -/
def pool5 : List PoolEntry :=
  [⟨0, 0.75, "Tente novamente!"⟩,
   ⟨5, 0.15, "Recuperou o valor!"⟩,
   ⟨15, 0.08, "Triplicou!"⟩,
   ⟨50, 0.019, "Grande prêmio!"⟩,
   ⟨250, 0.001, "JACKPOT!"⟩]

/-- Prize pool for ticket price 10 (src/main.py lines 61-67). -/
def pool10 : List PoolEntry :=
  [⟨0, 0.70, "Tente novamente!"⟩,
   ⟨10, 0.18, "Recuperou o valor!"⟩,
   ⟨30, 0.10, "Triplicou!"⟩,
   ⟨100, 0.019, "Grande prêmio!"⟩,
   ⟨500, 0.001, "JACKPOT!"⟩]

/-- Prize pool for ticket price 25 (src/main.py lines 68-74). -/
def pool25 : List PoolEntry :=
  [⟨0, 0.65, "Tente novamente!"⟩,
   ⟨25, 0.20, "Recuperou o valor!"⟩,
   ⟨75, 0.12, "Triplicou!"⟩,
   ⟨250, 0.029, "Grande prêmio!"⟩,
   ⟨1000, 0.001, "JACKPOT!"⟩]

/-- Prize pool for ticket price 50 (src/main.py lines 75-81). -/
def pool50 : List PoolEntry :=
  [⟨0, 0.60, "Tente novamente!"⟩,
   ⟨50, 0.22, "Recuperou o valor!"⟩,
   ⟨150, 0.15, "Triplicou!"⟩,
   ⟨500, 0.029, "Grande prêmio!"⟩,
   ⟨2500, 0.001, "JACKPOT!"⟩]

/-- The `self.prize_pools` dict, keyed by ticket price. -/
def prize_pools (price : ℚ) : Option (List PoolEntry) :=
  if price = 5 then some pool5
  else if price = 10 then some pool10
  else if price = 25 then some pool25
  else if price = 50 then some pool50
  else none

/-- The lookup `self.prize_pools.get(ticket_price, self.prize_pools[5])`
(src/main.py line 86): the 5-unit pool is the silent default. -/
def prize_pools_get (price : ℚ) : List PoolEntry :=
  (prize_pools price).getD pool5

/-- The tier cascade `PrizeSystem._get_prize_tier` (src/main.py lines 113-124). -/
def get_prize_tier (amount : ℚ) : String :=
  if amount ≥ 1000 then "jackpot"
  else if amount ≥ 100 then "major"
  else if amount ≥ 10 then "minor"
  else if amount > 0 then "consolation"
  else "none"

/-- The outcome dict built for a selected pool entry
(src/main.py lines 96-102). -/
def mkOutcome (e : PoolEntry) : PrizeOutcome :=
  { amount := e.amount,
    message := e.message,
    is_winner := decide (e.amount > 0),
    prize_tier := get_prize_tier e.amount }

/-- The fallback outcome dict (src/main.py lines 105-111), returned when the
selection loop falls through. -/
def fallbackOutcome : PrizeOutcome :=
  { amount := 0,
    message := "Tente novamente!",
    is_winner := false,
    prize_tier := "none" }

/-- The selection loop of `generate_prize` (src/main.py lines 90-102):
accumulate probability mass and return the first entry whose cumulative mass
satisfies `random_value <= cumulative_probability`. -/
def generate_prize_loop : List PoolEntry → ℚ → ℚ → Option PoolEntry
  | [], _, _ => none
  | e :: rest, r, acc =>
    if r ≤ acc + e.probability then some e
    else generate_prize_loop rest r (acc + e.probability)

/-- `PrizeSystem.generate_prize` (src/main.py lines 84-111) with the draw of
`random.random()` injected as the argument `r`. -/
def generate_prize (ticket_price : ℚ) (r : ℚ) : PrizeOutcome :=
  match generate_prize_loop (prize_pools_get ticket_price) r 0 with
  | some e => mkOutcome e
  | none => fallbackOutcome

/-- Cumulative probability mass of a pool up to and including index `i`. -/
def cumMassUpTo : List PoolEntry → ℕ → ℚ
  | [], _ => 0
  | e :: _, 0 => e.probability
  | e :: rest, i + 1 => e.probability + cumMassUpTo rest i

/-- Total probability mass of a pool. -/
def probSum (l : List PoolEntry) : ℚ :=
  (l.map PoolEntry.probability).sum

/-- Tier classification transcribed from the spec's words: `amount ≥ 1000 →
jackpot; ≥100 → major; ≥10 → minor; >0 → consolation; else → none`.  Kept as a
separate definition so the source cascade can be compared against it. -/
def spec_prize_tier (amount : ℚ) : String :=
  if amount ≥ 1000 then "jackpot"
  else if amount ≥ 100 then "major"
  else if amount ≥ 10 then "minor"
  else if amount > 0 then "consolation"
  else "none"

/-- Python-dict lookup on an association list (`db.get(key)`). -/
def assocLookup {α : Type} : List (String × α) → String → Option α
  | [], _ => none
  | (k, v) :: rest, key => if k = key then some v else assocLookup rest key

/-- Python-dict assignment on an association list (`db[key] = v`): replaces the
existing binding in place, or appends a fresh one. -/
def assocSet {α : Type} : List (String × α) → String → α → List (String × α)
  | [], key, v => [(key, v)]
  | (k, w) :: rest, key, v =>
    if k = key then (k, v) :: rest else (k, w) :: assocSet rest key v

/-- A ticket dict stored in `tickets_db` (src/main.py lines 237-244).
`scratched_at` is absent (`none`) until the ticket is scratched. -/
structure Ticket where
  id : String
  payment_id : String
  price : ℚ
  prize : PrizeOutcome
  created_at : String
  scratched : Bool
  scratched_at : Option String
deriving DecidableEq

/-- A `fastapi.HTTPException` carrying a status code and detail string. -/
structure HTTPException where
  status_code : ℕ
  detail : String
deriving DecidableEq

/-- The response dict of `POST /api/scratch-ticket/{ticket_id}`
(src/main.py lines 296-300). -/
structure ScratchResponse where
  ticket_id : String
  prize : PrizeOutcome
  message : String
deriving DecidableEq

/-- The `tickets_db` in-memory store. -/
abbrev TicketsDb := List (String × Ticket)

/-- The endpoint `scratch_ticket` (src/main.py lines 280-300), with the
wall-clock timestamp injected as `now`.  A raised `HTTPException` becomes an
`Except.error` and leaves the store untouched; the two successive dict
mutations on the same ticket are the single update of `scratched` and
`scratched_at`. -/
def scratch_ticket (db : TicketsDb) (tid : String) (now : String) :
    Except HTTPException ScratchResponse × TicketsDb :=
  match assocLookup db tid with
  | none => (.error ⟨404, "Bilhete não encontrado"⟩, db)
  | some t =>
    if t.scratched then
      (.error ⟨400, "Bilhete já foi raspado"⟩, db)
    else
      (.ok ⟨tid, t.prize, "Bilhete raspado com sucesso!"⟩,
       assocSet db tid { t with scratched := true, scratched_at := some now })

/-- The statistics dict returned by `GET /api/statistics`
(src/main.py lines 310-317). -/
structure Statistics where
  total_tickets : ℕ
  total_payments : ℚ
  total_prizes : ℚ
  winners_count : ℕ
  win_rate : ℚ
  house_edge : ℚ
deriving DecidableEq

/-- The endpoint `get_statistics` (src/main.py lines 302-317). -/
def get_statistics (db : TicketsDb) : Statistics :=
  let total_tickets := db.length
  let total_payments := (db.map (fun kt => kt.2.price)).sum
  let total_prizes :=
    ((db.filter (fun kt => kt.2.scratched)).map (fun kt => kt.2.prize.amount)).sum
  let winners := db.filter (fun kt => kt.2.scratched && decide (kt.2.prize.amount > 0))
  { total_tickets := total_tickets,
    total_payments := total_payments,
    total_prizes := total_prizes,
    winners_count := winners.length,
    win_rate := if total_tickets > 0 then (winners.length : ℚ) / (total_tickets : ℚ) else 0,
    house_edge :=
      if total_payments > 0 then (total_payments - total_prizes) / total_payments else 0 }

/-- A Mercado Pago transaction record stored in the simulator's ledger
(src/main.py lines 157-167).  `payer` and `metadata` dict payloads are opaque
and omitted. -/
structure MPTransaction where
  id : String
  status : String
  status_detail : String
  transaction_amount : ℚ
  payment_method_id : String
  date_created : String
  date_approved : Option String
deriving DecidableEq

/-- The dict returned by `MercadoPagoSimulator.process_payment`
(src/main.py lines 171-177). -/
structure MPResult where
  id : String
  status : String
  status_detail : String
  message : String
  transaction_amount : ℚ
deriving DecidableEq

/-- One failure scenario of `random.choice(failure_scenarios)`
(src/main.py lines 144-149): status, detail, message. -/
def failure_scenario : Fin 4 → String × String × String
  | 0 => ("rejected", "cc_rejected_insufficient_amount", "Saldo insuficiente")
  | 1 => ("rejected", "cc_rejected_bad_filled_security_code", "Código de segurança inválido")
  | 2 => ("pending", "pending_waiting_payment", "Aguardando pagamento")
  | 3 => ("rejected", "cc_rejected_call_for_authorize", "Pagamento não autorizado")

/-- `MercadoPagoSimulator.process_payment` (src/main.py lines 131-177), with
the approval draw (`random.random()`), the failure choice (`random.choice`),
the generated payment id and the timestamp injected. -/
def mp_process_payment (ledger : List (String × MPTransaction))
    (amount : ℚ) (method : String) (draw : ℚ) (choice : Fin 4)
    (paymentId now : String) :
    MPResult × List (String × MPTransaction) :=
  let (status, status_detail, message) :=
    if draw < 0.85 then ("approved", "accredited", "Pagamento aprovado com sucesso")
    else failure_scenario choice
  let tx : MPTransaction :=
    { id := paymentId,
      status := status,
      status_detail := status_detail,
      transaction_amount := amount,
      payment_method_id := method,
      date_created := now,
      date_approved := if status = "approved" then some now else none }
  ({ id := paymentId,
     status := status,
     status_detail := status_detail,
     message := message,
     transaction_amount := amount },
   assocSet ledger paymentId tx)

/-- A payment record stored in `payments_db` (src/main.py lines 225-230). -/
structure PaymentRecord where
  payment_id : String
  amount : ℚ
  status : String
  created_at : String
deriving DecidableEq

/-- The `PaymentResponse` model (src/main.py lines 43-48). -/
structure PaymentResponse where
  success : Bool
  payment_id : String
  status : String
  message : String
  ticket_id : Option String
deriving DecidableEq

/-- The whole mutable application state: the simulator ledger and the two
in-memory stores (src/main.py lines 129, 188-189). -/
structure AppState where
  mp_transactions : List (String × MPTransaction)
  tickets_db : TicketsDb
  payments_db : List (String × PaymentRecord)
deriving DecidableEq

/-- The endpoint `process_payment` (src/main.py lines 203-269).  The body runs
inside `try: ... except Exception as e: raise HTTPException(500, ...)`; since
`fastapi.HTTPException` is itself an `Exception`, the deliberately raised
`HTTPException(400, "Preço de bilhete inválido")` of line 212 is caught by the
blanket handler and re-raised as a 500 whose detail embeds `str(e)`, i.e.
`"400: Preço de bilhete inválido"`.  Randomness, ids and timestamps are
injected arguments. -/
def process_payment (st : AppState) (amount : ℚ) (method : String)
    (mpDraw : ℚ) (failChoice : Fin 4) (paymentId ticketId now : String)
    (prizeDraw : ℚ) :
    Except HTTPException PaymentResponse × AppState :=
  if amount = 5 ∨ amount = 10 ∨ amount = 25 ∨ amount = 50 then
    let (mpRes, ledger) :=
      mp_process_payment st.mp_transactions amount method mpDraw failChoice paymentId now
    let payments :=
      assocSet st.payments_db mpRes.id ⟨mpRes.id, amount, mpRes.status, now⟩
    if mpRes.status = "approved" then
      let prize := generate_prize amount prizeDraw
      let ticket : Ticket := ⟨ticketId, mpRes.id, amount, prize, now, false, none⟩
      (.ok ⟨true, mpRes.id, "approved",
            "Pagamento aprovado! Bilhete gerado com sucesso.", some ticketId⟩,
       ⟨ledger, assocSet st.tickets_db ticketId ticket, payments⟩)
    else
      (.ok ⟨false, mpRes.id, mpRes.status, mpRes.message, none⟩,
       ⟨ledger, st.tickets_db, payments⟩)
  else
    (.error ⟨500, "Erro interno: 400: Preço de bilhete inválido"⟩, st)

/-- Sample prize outcome used by concrete witnesses. -/
def samplePrize : PrizeOutcome := mkOutcome ⟨10, 0.18, "Recuperou o valor!"⟩

/-- Sample stored ticket used by concrete witnesses. -/
def sampleTicket : Ticket :=
  ⟨"t1", "p1", 10, samplePrize, "2024-01-01T00:00:00", false, none⟩

/-- Sample one-ticket store used by concrete witnesses. -/
def sampleDb : TicketsDb := [("t1", sampleTicket)]

theorem probSum_cons (e : PoolEntry) (l : List PoolEntry) :
    probSum (e :: l) = e.probability + probSum l := by
  simp [probSum]

theorem generate_prize_loop_first (l : List PoolEntry) (r : ℚ) :
    ∀ acc : ℚ, acc ≤ r → r < acc + probSum l →
    ∃ i : Fin l.length,
      generate_prize_loop l r acc = some (l.get i) ∧
      r ≤ acc + cumMassUpTo l i ∧
      ∀ j : ℕ, j < (i : ℕ) → acc + cumMassUpTo l j < r := by
  induction l with
  | nil =>
    intro acc h1 h2
    exfalso
    simp [probSum] at h2
    linarith
  | cons e rest ih =>
    intro acc h1 h2
    by_cases hc : r ≤ acc + e.probability
    · refine ⟨⟨0, by simp⟩, ?_, ?_, ?_⟩
      · simp [generate_prize_loop, if_pos hc]
      · simpa [cumMassUpTo] using hc
      · intro j hj
        simp at hj
    · push_neg at hc
      have h2' : r < (acc + e.probability) + probSum rest := by
        rw [probSum_cons] at h2
        linarith
      obtain ⟨i, hsel, hge, hlt⟩ := ih (acc + e.probability) (le_of_lt hc) h2'
      refine ⟨⟨(i : ℕ) + 1, by simp⟩, ?_, ?_, ?_⟩
      · simpa [generate_prize_loop, if_neg (not_le.mpr hc)] using hsel
      · simpa [cumMassUpTo, add_assoc] using hge
      · intro j hj
        cases j with
        | zero => simpa [cumMassUpTo] using hc
        | succ j' =>
          have hj' : j' < (i : ℕ) := by
            simpa using Nat.lt_of_succ_lt_succ hj
          have := hlt j' hj'
          simpa [cumMassUpTo, add_assoc] using this

theorem generate_prize_loop_none (l : List PoolEntry) (r : ℚ) :
    ∀ acc : ℚ, (∀ i : Fin l.length, acc + cumMassUpTo l i < r) →
      generate_prize_loop l r acc = none := by
  induction l with
  | nil => intro acc _; rfl
  | cons e rest ih =>
    intro acc h
    have h0 : acc + e.probability < r := by
      simpa [cumMassUpTo] using h ⟨0, by simp⟩
    rw [generate_prize_loop, if_neg (not_le.mpr h0)]
    apply ih
    intro i
    have := h ⟨(i : ℕ) + 1, by simp⟩
    simpa [cumMassUpTo, add_assoc] using this

theorem prize_pools_get_cases (p : ℚ) :
    prize_pools_get p = pool5 ∨ prize_pools_get p = pool10 ∨
    prize_pools_get p = pool25 ∨ prize_pools_get p = pool50 := by
  unfold prize_pools_get prize_pools
  split_ifs <;> simp

/-- C1: for every configured ticket price (5, 10, 25, 50) and every draw
`r ∈ [0,1)`, `generate_prize` returns the outcome built from the first pool
entry whose cumulative probability mass is `≥ r`, carrying that entry's amount
and message. -/
theorem C1_generate_prize_first_cumulative_ge (p r : ℚ)
    (hp : p = 5 ∨ p = 10 ∨ p = 25 ∨ p = 50) (h0 : 0 ≤ r) (h1 : r < 1) :
    ∃ i : Fin (prize_pools_get p).length,
      generate_prize p r = mkOutcome ((prize_pools_get p).get i) ∧
      (generate_prize p r).amount = ((prize_pools_get p).get i).amount ∧
      (generate_prize p r).message = ((prize_pools_get p).get i).message ∧
      r ≤ cumMassUpTo (prize_pools_get p) i ∧
      ∀ j : ℕ, j < (i : ℕ) → cumMassUpTo (prize_pools_get p) j < r := by
  have hsum : probSum (prize_pools_get p) = 1 := by
    rcases hp with h | h | h | h <;> subst h <;>
      norm_num [prize_pools_get, prize_pools, probSum, pool5, pool10, pool25, pool50]
  have h2 : r < 0 + probSum (prize_pools_get p) := by
    rw [hsum]
    linarith
  obtain ⟨i, hsel, hge, hlt⟩ := generate_prize_loop_first (prize_pools_get p) r 0 h0 h2
  refine ⟨i, ?_, ?_, ?_, ?_, ?_⟩
  · simp [generate_prize, hsel]
  · simp [generate_prize, hsel, mkOutcome]
  · simp [generate_prize, hsel, mkOutcome]
  · simpa using hge
  · intro j hj
    simpa using hlt j hj

/-- C1 witness: concrete instance at price 5 and draw 1/2. -/
theorem C1_witness :
    ((5:ℚ) = 5 ∨ (5:ℚ) = 10 ∨ (5:ℚ) = 25 ∨ (5:ℚ) = 50) ∧ (0:ℚ) ≤ 1/2 ∧ (1/2:ℚ) < 1 ∧
    ∃ i : Fin (prize_pools_get 5).length,
      generate_prize 5 (1/2) = mkOutcome ((prize_pools_get 5).get i) ∧
      (generate_prize 5 (1/2)).amount = ((prize_pools_get 5).get i).amount ∧
      (generate_prize 5 (1/2)).message = ((prize_pools_get 5).get i).message ∧
      (1/2 : ℚ) ≤ cumMassUpTo (prize_pools_get 5) i ∧
      ∀ j : ℕ, j < (i : ℕ) → cumMassUpTo (prize_pools_get 5) j < 1/2 :=
  ⟨Or.inl rfl, by norm_num, by norm_num,
   C1_generate_prize_first_cumulative_ge 5 (1/2) (Or.inl rfl) (by norm_num) (by norm_num)⟩

/-- C4 counterexample: at price 5 with draw 3/2 — strictly above the total
cumulative mass 1 — the code returns the fixed fallback dict with amount 0,
not the last pool entry (the 250-unit JACKPOT entry), so the claim as stated
is false. -/
theorem C4_counterexample :
    probSum (prize_pools_get 5) < (3/2 : ℚ) ∧
    (prize_pools_get 5).getLast? = some ⟨250, 0.001, "JACKPOT!"⟩ ∧
    generate_prize 5 (3/2) = fallbackOutcome ∧
    generate_prize 5 (3/2) ≠ mkOutcome ⟨250, 0.001, "JACKPOT!"⟩ := by
  have hfall : generate_prize 5 (3/2) = fallbackOutcome := by
    norm_num [generate_prize, generate_prize_loop, prize_pools_get, prize_pools, pool5]
  refine ⟨?_, ?_, hfall, ?_⟩
  · norm_num [probSum, prize_pools_get, prize_pools, pool5]
  · norm_num [prize_pools_get, prize_pools, pool5]
  · rw [hfall]
    intro h
    have := congrArg PrizeOutcome.amount h
    norm_num [fallbackOutcome, mkOutcome] at this

theorem pool_loop_none_of_one_lt (l : List PoolEntry) (r : ℚ)
    (hl : l = pool5 ∨ l = pool10 ∨ l = pool25 ∨ l = pool50) (hr : 1 < r) :
    generate_prize_loop l r 0 = none := by
  rcases hl with hc | hc | hc | hc <;> subst hc <;>
    apply generate_prize_loop_none <;> intro i <;> fin_cases i <;>
    norm_num [cumMassUpTo, pool5, pool10, pool25, pool50] <;> linarith

/-- C4 amended: if the draw `r` exceeds the final cumulative probability mass,
`generate_prize` deterministically returns the fixed fallback outcome (amount
0, message "Tente novamente!", tier "none", not a winner) — which coincides
with the first entry's amount and message, not with the last entry — rather
than failing. -/
theorem C4_overflow_returns_fallback (p r : ℚ)
    (h : probSum (prize_pools_get p) < r) :
    generate_prize p r = fallbackOutcome := by
  have hl := prize_pools_get_cases p
  have hr : 1 < r := by
    rcases hl with hc | hc | hc | hc <;> rw [hc] at h <;>
      norm_num [probSum, pool5, pool10, pool25, pool50] at h <;> exact h
  have hnone : generate_prize_loop (prize_pools_get p) r 0 = none :=
    pool_loop_none_of_one_lt (prize_pools_get p) r hl hr
  simp [generate_prize, hnone]

/-- C4 witness: concrete overflow draw 2 at price 5 yields the fallback. -/
theorem C4_witness :
    probSum (prize_pools_get 5) < (2 : ℚ) ∧ generate_prize 5 2 = fallbackOutcome :=
  ⟨by norm_num [probSum, prize_pools_get, prize_pools, pool5],
   C4_overflow_returns_fallback 5 2
     (by norm_num [probSum, prize_pools_get, prize_pools, pool5])⟩

/-- C5: for every ticket price that is not a configured tier, `generate_prize`
silently substitutes the 5-unit pool and draws from it. -/
theorem C5_unconfigured_price_uses_pool5 (p : ℚ)
    (h5 : p ≠ 5) (h10 : p ≠ 10) (h25 : p ≠ 25) (h50 : p ≠ 50) :
    prize_pools p = none ∧
    prize_pools_get p = prize_pools_get 5 ∧
    ∀ r : ℚ, generate_prize p r = generate_prize 5 r := by
  have hnone : prize_pools p = none := by
    simp [prize_pools, h5, h10, h25, h50]
  have hp : prize_pools_get p = pool5 := by
    simp [prize_pools_get, hnone]
  have h5' : prize_pools_get 5 = pool5 := by
    simp [prize_pools_get, prize_pools]
  exact ⟨hnone, hp.trans h5'.symm, fun r => by simp [generate_prize, hp, h5']⟩

/-- C5 witness: concrete unconfigured price 7 falls back to the 5-unit pool. -/
theorem C5_witness :
    (7:ℚ) ≠ 5 ∧ (7:ℚ) ≠ 10 ∧ (7:ℚ) ≠ 25 ∧ (7:ℚ) ≠ 50 ∧
    prize_pools_get 7 = prize_pools_get 5 ∧
    generate_prize 7 (1/2) = generate_prize 5 (1/2) := by
  have h := C5_unconfigured_price_uses_pool5 7
    (by norm_num) (by norm_num) (by norm_num) (by norm_num)
  exact ⟨by norm_num, by norm_num, by norm_num, by norm_num, h.2.1, h.2.2 (1/2)⟩

/-- C9: every generated outcome's tier is the pure cascade of its amount
(`≥1000 → jackpot; ≥100 → major; ≥10 → minor; >0 → consolation; else none`)
and `is_winner` holds exactly when the amount is positive. -/
theorem C9_tier_pure_function_of_amount (p r : ℚ) :
    (generate_prize p r).prize_tier = spec_prize_tier ((generate_prize p r).amount) ∧
    ((generate_prize p r).is_winner = true ↔ (generate_prize p r).amount > 0) := by
  have htier : ∀ a : ℚ, get_prize_tier a = spec_prize_tier a := fun a => rfl
  cases hsel : generate_prize_loop (prize_pools_get p) r 0 with
  | none =>
    constructor
    · norm_num [generate_prize, hsel, fallbackOutcome, spec_prize_tier]
    · simp [generate_prize, hsel, fallbackOutcome]
  | some e =>
    constructor
    · simp [generate_prize, hsel, mkOutcome, htier]
    · simp [generate_prize, hsel, mkOutcome]

/-- C10: for each configured ticket price the prize-table probabilities sum to
1 exactly (hence within the 1e-9 tolerance), over the exact decimal values of
the configured literals. -/
theorem C10_probabilities_sum_to_one :
    |probSum (prize_pools_get 5) - 1| ≤ 1/1000000000 ∧
    |probSum (prize_pools_get 10) - 1| ≤ 1/1000000000 ∧
    |probSum (prize_pools_get 25) - 1| ≤ 1/1000000000 ∧
    |probSum (prize_pools_get 50) - 1| ≤ 1/1000000000 := by
  norm_num [probSum, prize_pools_get, prize_pools, pool5, pool10, pool25, pool50]

theorem assocLookup_set_self {α : Type} (db : List (String × α)) (k : String) (v : α) :
    assocLookup (assocSet db k v) k = some v := by
  induction db with
  | nil => simp [assocSet, assocLookup]
  | cons kw rest ih =>
    obtain ⟨k', w⟩ := kw
    by_cases h : k' = k
    · simp [assocSet, h, assocLookup]
    · simp [assocSet, h, assocLookup, ih]

theorem assocLookup_set_other {α : Type} (db : List (String × α)) (k other : String)
    (v : α) (h : other ≠ k) :
    assocLookup (assocSet db k v) other = assocLookup db other := by
  induction db with
  | nil => simp [assocSet, assocLookup, Ne.symm h]
  | cons kw rest ih =>
    obtain ⟨k', w⟩ := kw
    by_cases hk : k' = k
    · subst hk
      simp [assocSet, assocLookup, Ne.symm h]
    · simp only [assocSet, if_neg hk]
      by_cases ho : k' = other
      · simp [assocLookup, ho]
      · simp [assocLookup, ho, ih]

/-- C2: `scratch_ticket` fails with 404 when the id is unknown and with 400
when the ticket is already scratched, leaving the store untouched; on a not
yet scratched ticket it succeeds exactly once, returning the fixed prize, and
every subsequent call on the same id returns 400 without changing the stored
ticket (in particular its prize and `scratched_at` stay as the first call set
them). -/
theorem C2_scratch_error_and_idempotence (db : TicketsDb) (tid now : String) :
    (assocLookup db tid = none →
      scratch_ticket db tid now = (.error ⟨404, "Bilhete não encontrado"⟩, db)) ∧
    (∀ t : Ticket, assocLookup db tid = some t → t.scratched = true →
      scratch_ticket db tid now = (.error ⟨400, "Bilhete já foi raspado"⟩, db)) ∧
    (∀ t : Ticket, assocLookup db tid = some t → t.scratched = false →
      (scratch_ticket db tid now).1 =
        .ok ⟨tid, t.prize, "Bilhete raspado com sucesso!"⟩ ∧
      assocLookup (scratch_ticket db tid now).2 tid =
        some { t with scratched := true, scratched_at := some now } ∧
      ∀ now' : String,
        scratch_ticket (scratch_ticket db tid now).2 tid now' =
          (.error ⟨400, "Bilhete já foi raspado"⟩, (scratch_ticket db tid now).2)) := by
  refine ⟨?_, ?_, ?_⟩
  · intro h
    simp [scratch_ticket, h]
  · intro t hl hs
    simp [scratch_ticket, hl, hs]
  · intro t hl hs
    have hres : scratch_ticket db tid now =
        (.ok ⟨tid, t.prize, "Bilhete raspado com sucesso!"⟩,
         assocSet db tid { t with scratched := true, scratched_at := some now }) := by
      simp [scratch_ticket, hl, hs]
    have hlook : assocLookup (scratch_ticket db tid now).2 tid =
        some { t with scratched := true, scratched_at := some now } := by
      rw [hres]
      exact assocLookup_set_self db tid _
    refine ⟨by rw [hres], hlook, ?_⟩
    intro now'
    generalize hdb2 : (scratch_ticket db tid now).2 = db2 at hlook
    simp [scratch_ticket, hlook]

/-- C2 witness: on a concrete one-ticket store, the first scratch succeeds
with the stored prize and the second returns 400 leaving the store as the
first call left it. -/
theorem C2_witness :
    (scratch_ticket sampleDb "t1" "now").1 =
      .ok ⟨"t1", sampleTicket.prize, "Bilhete raspado com sucesso!"⟩ ∧
    assocLookup (scratch_ticket sampleDb "t1" "now").2 "t1" =
      some { sampleTicket with scratched := true, scratched_at := some "now" } ∧
    scratch_ticket (scratch_ticket sampleDb "t1" "now").2 "t1" "later" =
      (.error ⟨400, "Bilhete já foi raspado"⟩, (scratch_ticket sampleDb "t1" "now").2) := by
  obtain ⟨h1, h2, h3⟩ :=
    (C2_scratch_error_and_idempotence sampleDb "t1" "now").2.2 sampleTicket rfl rfl
  exact ⟨h1, h2, h3 "later"⟩

/-- C7: a successful scratch updates only the `scratched` flag and the
`scratched_at` stamp of the addressed ticket; its id, payment_id, price,
created_at and prize are unchanged, the returned prize is the stored prize,
and every other ticket in the store is untouched. -/
theorem C7_scratch_frame (db : TicketsDb) (tid now : String) (t : Ticket)
    (hl : assocLookup db tid = some t) (hs : t.scratched = false) :
    (∃ t' : Ticket, assocLookup (scratch_ticket db tid now).2 tid = some t' ∧
      t'.id = t.id ∧ t'.payment_id = t.payment_id ∧ t'.price = t.price ∧
      t'.created_at = t.created_at ∧ t'.prize = t.prize ∧
      t'.scratched = true ∧ t'.scratched_at = some now) ∧
    (∀ other : String, other ≠ tid →
      assocLookup (scratch_ticket db tid now).2 other = assocLookup db other) ∧
    (scratch_ticket db tid now).1 =
      .ok ⟨tid, t.prize, "Bilhete raspado com sucesso!"⟩ := by
  have hres : scratch_ticket db tid now =
      (.ok ⟨tid, t.prize, "Bilhete raspado com sucesso!"⟩,
       assocSet db tid { t with scratched := true, scratched_at := some now }) := by
    simp [scratch_ticket, hl, hs]
  refine ⟨⟨{ t with scratched := true, scratched_at := some now }, ?_,
    rfl, rfl, rfl, rfl, rfl, rfl, rfl⟩, ?_, by rw [hres]⟩
  · rw [hres]
    exact assocLookup_set_self db tid _
  · intro other ho
    rw [hres]
    exact assocLookup_set_other db tid other _ ho

/-- C7 witness: concrete frame check on a one-ticket store, including a probe
at a different id. -/
theorem C7_witness :
    (∃ t' : Ticket, assocLookup (scratch_ticket sampleDb "t1" "tick").2 "t1" = some t' ∧
      t'.id = sampleTicket.id ∧ t'.payment_id = sampleTicket.payment_id ∧
      t'.price = sampleTicket.price ∧ t'.created_at = sampleTicket.created_at ∧
      t'.prize = sampleTicket.prize ∧ t'.scratched = true ∧
      t'.scratched_at = some "tick") ∧
    assocLookup (scratch_ticket sampleDb "t1" "tick").2 "t2" = assocLookup sampleDb "t2" ∧
    (scratch_ticket sampleDb "t1" "tick").1 =
      .ok ⟨"t1", sampleTicket.prize, "Bilhete raspado com sucesso!"⟩ := by
  obtain ⟨h1, h2, h3⟩ := C7_scratch_frame sampleDb "t1" "tick" sampleTicket rfl rfl
  exact ⟨h1, h2 "t2" (by decide), h3⟩

/-- C3 (code bug): for a request whose amount is not a configured price, the
endpoint does NOT answer 400.  The deliberately raised
`HTTPException(400, "Preço de bilhete inválido")` of line 212 is caught by the
function's own blanket `except Exception` handler (line 267) and re-raised as
a 500, so the response is a 500 whose detail merely quotes the original 400. -/
theorem C3_invalid_price_rewrapped_as_500 (st : AppState) (method : String)
    (mpDraw : ℚ) (fc : Fin 4) (pid tid now : String) (pd : ℚ) :
    (process_payment st 7 method mpDraw fc pid tid now pd).1 =
      .error ⟨500, "Erro interno: 400: Preço de bilhete inválido"⟩ ∧
    (process_payment st 7 method mpDraw fc pid tid now pd).1 ≠
      .error ⟨400, "Preço de bilhete inválido"⟩ := by
  have hcond : ¬((7:ℚ) = 5 ∨ (7:ℚ) = 10 ∨ (7:ℚ) = 25 ∨ (7:ℚ) = 50) := by norm_num
  constructor
  · simp [process_payment, hcond]
  · simp [process_payment, hcond]

/-- C8: a request with an amount outside the configured prices leaves the
application state untouched: no ticket and no payment record is added (the
validation fails before either store is written). -/
theorem C8_invalid_price_no_side_effects (st : AppState) (amount : ℚ)
    (h5 : amount ≠ 5) (h10 : amount ≠ 10) (h25 : amount ≠ 25) (h50 : amount ≠ 50)
    (method : String) (mpDraw : ℚ) (fc : Fin 4) (pid tid now : String) (pd : ℚ) :
    (process_payment st amount method mpDraw fc pid tid now pd).2 = st ∧
    (process_payment st amount method mpDraw fc pid tid now pd).2.tickets_db =
      st.tickets_db ∧
    (process_payment st amount method mpDraw fc pid tid now pd).2.payments_db =
      st.payments_db := by
  have hcond : ¬(amount = 5 ∨ amount = 10 ∨ amount = 25 ∨ amount = 50) := by
    push_neg
    exact ⟨h5, h10, h25, h50⟩
  refine ⟨?_, ?_, ?_⟩ <;> simp [process_payment, hcond]

/-- C8 witness: concrete rejected purchase with amount 7 against the empty
state records nothing. -/
theorem C8_witness :
    (7:ℚ) ≠ 5 ∧ (7:ℚ) ≠ 10 ∧ (7:ℚ) ≠ 25 ∧ (7:ℚ) ≠ 50 ∧
    (process_payment ⟨[], [], []⟩ 7 "pix" 0 0 "p1" "t1" "now" 0).2 =
      (⟨[], [], []⟩ : AppState) ∧
    (process_payment ⟨[], [], []⟩ 7 "pix" 0 0 "p1" "t1" "now" 0).2.tickets_db = [] ∧
    (process_payment ⟨[], [], []⟩ 7 "pix" 0 0 "p1" "t1" "now" 0).2.payments_db = [] := by
  have h := C8_invalid_price_no_side_effects ⟨[], [], []⟩ 7
    (by norm_num) (by norm_num) (by norm_num) (by norm_num) "pix" 0 0 "p1" "t1" "now" 0
  exact ⟨by norm_num, by norm_num, by norm_num, by norm_num, h.1, h.2.1, h.2.2⟩

/-- Transcribed from the spec's definition `total_collected = Σ price over all
tickets`, regardless of scratch state. -/
def spec_total_collected (db : TicketsDb) : ℚ :=
  (db.map (fun kt => kt.2.price)).sum

/-- Transcribed from the spec's definition `total_paid_out = Σ prize.amount
over scratched tickets only`. -/
def spec_total_paid_out (db : TicketsDb) : ℚ :=
  ((db.filter (fun kt => kt.2.scratched)).map (fun kt => kt.2.prize.amount)).sum

/-- Transcribed from the spec's definition `winners_count = count of scratched
tickets with prize.amount > 0`. -/
def spec_winners_count (db : TicketsDb) : ℕ :=
  (db.filter (fun kt => kt.2.scratched && decide (kt.2.prize.amount > 0))).length

/-- C6: the statistics summary realizes the spec's aggregate definitions —
collected sums prices of all tickets, paid-out sums prizes of scratched
tickets only, winners counts scratched winning tickets, win rate is
winners/total with 0 on an empty store, and house edge is
(collected − paid)/collected with 0 when nothing was collected.  Ticket prices
are nonnegative in every reachable store (they come from the configured
tiers). -/
theorem C6_statistics_summary (db : TicketsDb)
    (hpos : ∀ kt ∈ db, 0 ≤ kt.2.price) :
    (get_statistics db).total_tickets = db.length ∧
    (get_statistics db).total_payments = spec_total_collected db ∧
    (get_statistics db).total_prizes = spec_total_paid_out db ∧
    (get_statistics db).winners_count = spec_winners_count db ∧
    (db.length = 0 → (get_statistics db).win_rate = 0) ∧
    (db.length ≠ 0 →
      (get_statistics db).win_rate = (spec_winners_count db : ℚ) / (db.length : ℚ)) ∧
    (spec_total_collected db = 0 → (get_statistics db).house_edge = 0) ∧
    (spec_total_collected db ≠ 0 →
      (get_statistics db).house_edge =
        (spec_total_collected db - spec_total_paid_out db) / spec_total_collected db) := by
  have hsumnn : 0 ≤ spec_total_collected db := by
    apply List.sum_nonneg
    intro x hx
    obtain ⟨kt, hkt, rfl⟩ := List.mem_map.mp hx
    exact hpos kt hkt
  refine ⟨rfl, rfl, rfl, rfl, ?_, ?_, ?_, ?_⟩
  · intro h
    simp [get_statistics, h]
  · intro h
    simp [get_statistics, Nat.pos_of_ne_zero h, spec_winners_count]
  · intro h
    have h' : (db.map (fun kt => kt.2.price)).sum = 0 := h
    simp [get_statistics, h']
  · intro h
    have h' : (0:ℚ) < (db.map (fun kt => kt.2.price)).sum :=
      lt_of_le_of_ne hsumnn (Ne.symm h)
    simp [get_statistics, h', spec_total_collected, spec_total_paid_out]

/-- C6 witness: concrete summary on the one-ticket sample store. -/
theorem C6_witness :
    (get_statistics sampleDb).total_payments = spec_total_collected sampleDb ∧
    (get_statistics sampleDb).total_prizes = spec_total_paid_out sampleDb ∧
    (get_statistics sampleDb).winners_count = spec_winners_count sampleDb ∧
    (get_statistics sampleDb).win_rate =
      (spec_winners_count sampleDb : ℚ) / (sampleDb.length : ℚ) ∧
    (get_statistics sampleDb).house_edge =
      (spec_total_collected sampleDb - spec_total_paid_out sampleDb) /
        spec_total_collected sampleDb := by
  have h := C6_statistics_summary sampleDb (by
    intro kt hkt
    simp only [sampleDb, List.mem_singleton] at hkt
    subst hkt
    norm_num [sampleTicket])
  exact ⟨h.2.1, h.2.2.1, h.2.2.2.1,
    h.2.2.2.2.2.1 (by norm_num [sampleDb]),
    h.2.2.2.2.2.2.2 (by norm_num [spec_total_collected, sampleDb, sampleTicket])⟩
